import Mathlib

/-!
Verification of the Light-WebSocketServer-IDF WebSocket server core.

This file gives a shallow embedding, in Lean 4, of the protocol engine
implemented in `src/ws_light_server.cpp`:

* the upgrade handshake (`WSLightServer::send_handshake`), together with
  executable models of the SHA-1 and Base64 primitives it calls
  (`mbedtls_sha1`, `mbedtls_base64_encode`);
* the frame codec (`WSLightServer::encode_frame`,
  `WSLightServer::decode_frame` with its static `accumulated_message`);
* the opcode dispatch (`WSLightServer::process_message`,
  `WSLightServer::handle_ping`, `WSLightServer::cleanup_client_connection`);
* one iteration of the receive loop in
  `WSLightServer::handle_client_connection`;
* the send API (`sendTextMessage`, `sendBinaryMessage`) and the callback
  registration `onClientDisconnected`, over an explicit server state.

Bytes are modelled as `Nat` values below 256; machine-word arithmetic is
made explicit with `% 2 ^ 32` (SHA-1 words) and `% 2 ^ 64` (`size_t` /
`uint64_t` quantities).  The constant `MAX_MESSAGE_SIZE`, whose definition
lives outside the files under verification, is kept as an explicit
parameter of the functions that read it.

Theorems about the embedded definitions follow all definitions.
-/

namespace WS

/-- Frame type values from `ws_types.h` (`ws_type_t`). -/
def HTTPD_WS_TYPE_CONTINUATION : Nat := 0x0

/-- Text frame opcode from `ws_types.h`. -/
def HTTPD_WS_TYPE_TEXT : Nat := 0x1

/-- Binary frame opcode from `ws_types.h`. -/
def HTTPD_WS_TYPE_BINARY : Nat := 0x2

/-- Close frame opcode from `ws_types.h`. -/
def HTTPD_WS_TYPE_CLOSE : Nat := 0x8

/-- Ping frame opcode from `ws_types.h`. -/
def HTTPD_WS_TYPE_PING : Nat := 0x9

/-- Pong frame opcode from `ws_types.h`. -/
def HTTPD_WS_TYPE_PONG : Nat := 0xA

/-- The ASCII bytes of a string literal, used to move between the C
string manipulation in the source and byte lists. -/
def strBytes (s : String) : List Nat :=
  s.data.map Char.toNat

/-- Byte-level model of `::tolower` as applied by
`std::transform(..., ::tolower)` over an ASCII request. -/
def toLowerByte (b : Nat) : Nat :=
  if 65 ≤ b ∧ b ≤ 90 then b + 32 else b

/-- Whether the list starts with the given pattern, byte for byte. -/
def listStartsWith : List Nat → List Nat → Bool
  | _, [] => true
  | [], _ :: _ => false
  | a :: as, b :: bs => a == b && listStartsWith as bs

/-- Index of the first occurrence of `pat` in the list, mirroring
`std::string::find` (returning `none` for `npos`). -/
def findSub : List Nat → List Nat → Option Nat
  | [], pat => if pat.isEmpty then some 0 else none
  | a :: rest, pat =>
    if listStartsWith (a :: rest) pat then some 0
    else (findSub rest pat).map (· + 1)

/-! ### SHA-1 (model of `mbedtls_sha1`) -/

/-- 32-bit left rotation on a word already reduced modulo `2 ^ 32`. -/
def rotl32 (n x : Nat) : Nat :=
  ((x <<< n) ||| (x >>> (32 - n))) % 2 ^ 32

/-- SHA-1 message padding: append `0x80`, zero bytes up to 56 mod 64,
then the bit length as 8 big-endian bytes. -/
def sha1pad (msg : List Nat) : List Nat :=
  msg ++ [128] ++ List.replicate ((119 - msg.length % 64) % 64) 0
    ++ (List.range 8).map (fun i => ((msg.length * 8) >>> ((7 - i) * 8)) % 256)

/-- Big-endian grouping of bytes into 32-bit words. -/
def bytesToWords : List Nat → List Nat
  | a :: b :: c :: d :: rest =>
    ((((a <<< 8 ||| b) <<< 8) ||| c) <<< 8 ||| d) :: bytesToWords rest
  | _ => []

/-- Split a byte list into 64-byte blocks; the first argument is fuel
bounding the number of blocks. -/
def chunks64Aux : Nat → List Nat → List (List Nat)
  | 0, _ => []
  | _, [] => []
  | fuel + 1, l => l.take 64 :: chunks64Aux fuel (l.drop 64)

/-- Split a byte list into 64-byte blocks. -/
def chunks64 (l : List Nat) : List (List Nat) :=
  chunks64Aux l.length l

/-- The 80-entry SHA-1 message schedule of one block. -/
def sha1Schedule (block : List Nat) : Array Nat :=
  (List.range 64).foldl
    (fun w i =>
      let t := i + 16
      w.push (rotl32 1 ((w.getD (t - 3) 0) ^^^ (w.getD (t - 8) 0) ^^^
        (w.getD (t - 14) 0) ^^^ (w.getD (t - 16) 0))))
    (bytesToWords block).toArray

/-- The SHA-1 round function. -/
def sha1f (t b c d : Nat) : Nat :=
  if t < 20 then (b &&& c) ||| ((b ^^^ (2 ^ 32 - 1)) &&& d)
  else if t < 40 then b ^^^ c ^^^ d
  else if t < 60 then (b &&& c) ||| (b &&& d) ||| (c &&& d)
  else b ^^^ c ^^^ d

/-- The SHA-1 round constants. -/
def sha1K (t : Nat) : Nat :=
  if t < 20 then 0x5A827999
  else if t < 40 then 0x6ED9EBA1
  else if t < 60 then 0x8F1BBCDC
  else 0xCA62C1D6

/-- One SHA-1 block compression step over the five-word state. -/
def sha1Block (h : Nat × Nat × Nat × Nat × Nat) (block : List Nat) :
    Nat × Nat × Nat × Nat × Nat :=
  let w := sha1Schedule block
  let final := (List.range 80).foldl
    (fun st t =>
      let (a, b, c, d, e) := st
      ((rotl32 5 a + sha1f t b c d + e + sha1K t + w.getD t 0) % 2 ^ 32,
        a, rotl32 30 b, c, d))
    (h.1, h.2.1, h.2.2.1, h.2.2.2.1, h.2.2.2.2)
  ((h.1 + final.1) % 2 ^ 32, (h.2.1 + final.2.1) % 2 ^ 32,
    (h.2.2.1 + final.2.2.1) % 2 ^ 32, (h.2.2.2.1 + final.2.2.2.1) % 2 ^ 32,
    (h.2.2.2.2 + final.2.2.2.2) % 2 ^ 32)

/-- SHA-1 digest of a byte list, as 20 bytes. -/
def sha1 (msg : List Nat) : List Nat :=
  let hs := (chunks64 (sha1pad msg)).foldl sha1Block
    (0x67452301, 0xEFCDAB89, 0x98BADCFE, 0x10325476, 0xC3D2E1F0)
  [hs.1, hs.2.1, hs.2.2.1, hs.2.2.2.1, hs.2.2.2.2].foldr
    (fun h acc => (List.range 4).map (fun i => (h >>> ((3 - i) * 8)) % 256) ++ acc) []

/-! ### Base64 (model of `mbedtls_base64_encode`) -/

/-- The Base64 alphabet. -/
def b64chars : List Nat :=
  strBytes "ABCDEFGHIJKLMNOPQRSTUVWXYZabcdefghijklmnopqrstuvwxyz0123456789+/"

/-- Standard Base64 encoding with `=` padding. -/
def base64encode : List Nat → List Nat
  | a :: b :: c :: rest =>
    b64chars.getD ((a >>> 2) % 64) 0 ::
    b64chars.getD (((a <<< 4) ||| (b >>> 4)) % 64) 0 ::
    b64chars.getD (((b <<< 2) ||| (c >>> 6)) % 64) 0 ::
    b64chars.getD (c % 64) 0 :: base64encode rest
  | [a, b] =>
    [b64chars.getD ((a >>> 2) % 64) 0,
      b64chars.getD (((a <<< 4) ||| (b >>> 4)) % 64) 0,
      b64chars.getD ((b <<< 2) % 64) 0, 61]
  | [a] =>
    [b64chars.getD ((a >>> 2) % 64) 0,
      b64chars.getD ((a <<< 4) % 64) 0, 61, 61]
  | [] => []

/-! ### Handshake (model of `WSLightServer::send_handshake`) -/

/-- The fixed RFC 6455 GUID appended to the key in `send_handshake`. -/
def websocketGUID : List Nat :=
  strBytes "258EAFA5-E914-47DA-95CA-C5AB0DC85B11"

/-- The `Sec-WebSocket-Accept` value the specification prescribes for a
given key: `base64(sha1(key ++ GUID))`. -/
def acceptFor (key : List Nat) : List Nat :=
  base64encode (sha1 (key ++ websocketGUID))

/-- The lower-cased header pattern searched for by `send_handshake`. -/
def keyHeaderPat : List Nat :=
  strBytes "sec-websocket-key: "

/-- The fixed part of the 101 response preceding the accept value. -/
def handshakePrefix : List Nat :=
  strBytes ("HTTP/1.1 101 Switching Protocols\r\nUpgrade: websocket\r\n" ++
    "Connection: Upgrade\r\nSec-WebSocket-Accept: ")

/-- Model of `WSLightServer::send_handshake`: lower-case the request,
search for `sec-websocket-key: `, take the value up to the next CRLF
(or to the end of the request when no CRLF follows), and build the
101 response; when the header is absent nothing is sent (`none`).
The socket is not touched on failure. -/
def send_handshake (request : List Nat) : Option (List Nat) :=
  let request_lower := request.map toLowerByte
  match findSub request_lower keyHeaderPat with
  | none => none
  | some pos =>
    let key_start := pos + 19
    let key_len :=
      match findSub (request_lower.drop key_start) (strBytes "\r\n") with
      | some j => j
      | none => request.length - key_start
    let key := (request.drop key_start).take key_len
    some (handshakePrefix ++ acceptFor key ++ strBytes "\r\n\r\n")

/-! ### Frame encoder (model of `WSLightServer::encode_frame`)

The source has two overloads, over `std::vector<uint8_t>` and over
`std::string`; byte for byte they build the same frame, so one
definition covers both.  The local `mask` flag in the source is the
literal `false`, so only the unmasked branch is reachable. -/

/-- The length bytes the encoder pushes after the first byte: a single
7-bit length, or `126` plus 16 bits big-endian, or `127` plus 64 bits
big-endian. -/
def lenBytes (n : Nat) : List Nat :=
  if n ≤ 125 then [n]
  else if n ≤ 65535 then [126, (n >>> 8) % 256, n % 256]
  else 127 :: (List.range 8).map (fun i => (n >>> ((7 - i) * 8)) % 256)

/-- Model of `WSLightServer::encode_frame`: FIN bit always set, opcode
in the low nibble, length encoding per `lenBytes`, unmasked payload
appended verbatim. -/
def encode_frame (message : List Nat) (ty : Nat) : List Nat :=
  (128 ||| (ty % 16)) :: lenBytes message.length ++ message

/-! ### Frame decoder (model of `WSLightServer::decode_frame`) -/

/-- The value `2 ^ 64`, the modulus of `size_t` and `uint64_t`
arithmetic on the target. -/
def two64 : Nat := 2 ^ 64

/-- Result of one `decode_frame` call.  `msg` is the returned
`DecodedMessage`: `none` stands for the `{nullptr, 0}` sentinel, and
`some p` for a buffer holding `p` (whose `length` field is `p.length`).
`ty` is the out-parameter `type`, `none` when the call returns before
assigning it.  `acc` is the static `accumulated_message` after the
call, with `none` for `{nullptr, 0}`. -/
structure DecodeOut where
  msg : Option (List Nat)
  ty : Option Nat
  acc : Option (List Nat)
deriving DecidableEq

/-- Model of `WSLightServer::decode_frame`.  Frames shorter than 2
bytes, frames too short for their extended length, unmasked frames and
frames shorter than `offset + 4 + payload_len` all return the null
sentinel.  A masked final frame returns its unmasked payload (the null
sentinel when the payload is empty) and resets the accumulator; a
masked non-final frame appends its unmasked payload to the accumulator
and returns the null sentinel. -/
def decode_frame (frame : List Nat) (acc : Option (List Nat)) : DecodeOut :=
  if frame.length < 2 then ⟨none, none, acc⟩
  else
    let first_byte := frame.getD 0 0
    let second_byte := frame.getD 1 0
    let fin : Bool := (first_byte &&& 128) != 0
    let ty := first_byte &&& 15
    let masked : Bool := (second_byte &&& 128) != 0
    let len7 := second_byte &&& 127
    let ext : Option (Nat × Nat) :=
      if len7 = 126 then
        if frame.length < 4 then none
        else some (((frame.getD 2 0) <<< 8) ||| frame.getD 3 0, 4)
      else if len7 = 127 then
        if frame.length < 10 then none
        else some ((List.range 8).foldl
          (fun a i => (a <<< 8) ||| frame.getD (2 + i) 0) 0, 10)
      else some (len7, 2)
    match ext with
    | none => ⟨none, some ty, acc⟩
    | some (payload_len, offset) =>
      if masked then
        if frame.length < (offset + 4 + payload_len) % two64 then ⟨none, some ty, acc⟩
        else
          let mask_key := (frame.drop offset).take 4
          let payload := (List.range payload_len).map
            (fun i => (frame.getD (offset + 4 + i) 0) ^^^ (mask_key.getD (i % 4) 0))
          let message : Option (List Nat) := if payload_len = 0 then none else some payload
          if fin then ⟨message, some ty, none⟩
          else
            match acc with
            | some a => ⟨none, some ty, some (a ++ payload)⟩
            | none => ⟨none, some ty, message⟩
      else ⟨none, some ty, acc⟩

/-! ### Client-side frame constructions

These build the wire frames a client would send; they are the inputs
on which the decoder claims are stated. -/

/-- XOR a payload with a repeating 4-byte mask key: the RFC 6455 client
masking, also the unmasking loop inside `decode_frame`. -/
def maskBytes (mkey P : List Nat) : List Nat :=
  (List.range P.length).map (fun i => (P.getD i 0) ^^^ (mkey.getD (i % 4) 0))

/-- A well-formed masked client frame with FIN set: opcode `ty`, mask
key `mkey`, and raw (already masked, as on the wire) payload `R`. -/
def rawClientFrame (ty : Nat) (mkey R : List Nat) : List Nat :=
  (128 ||| (ty % 16)) ::
    (match lenBytes R.length with
      | b :: rest => (128 ||| b) :: rest
      | [] => []) ++ mkey ++ R

/-- The client-masked counterpart of an encoder output: the frame
`encode_frame P ty` with the mask bit set in its second byte, the mask
key inserted after the length bytes, and the payload XOR-masked. -/
def clientMaskOf (mkey : List Nat) (ty : Nat) (P : List Nat) : List Nat :=
  match encode_frame P ty with
  | b0 :: b1 :: rest =>
    b0 :: (128 ||| b1) :: ((rest.take (rest.length - P.length)) ++ mkey ++ maskBytes mkey P)
  | l => l

/-! ### Opcode dispatch (model of `WSLightServer::process_message`) -/

/-- An application callback invocation. -/
inductive Event where
  | text (payload : List Nat)
  | binary (payload : List Nat)
  | ping
  | pong
  | closeMsg
  | disconnected
deriving DecidableEq

/-- Observable effect of one `process_message` call: the frames written
to the client socket in order, the callbacks invoked in order (each
counted when its slot is registered), and whether
`cleanup_client_connection` ran (closing the socket and resetting
`client_sock` to `-1`). -/
structure ProcessOut where
  sent : List (List Nat)
  events : List Event
  closedSocket : Bool
deriving DecidableEq

/-- Model of `WSLightServer::handle_ping`: encode the received payload
as a PONG frame, send it, then invoke the ping callback. -/
def handle_ping (payload : List Nat) : ProcessOut :=
  ⟨[encode_frame payload HTTPD_WS_TYPE_PONG], [Event.ping], false⟩

/-- Model of `WSLightServer::process_message`: continuation frames
return before the dispatch switch; text and binary invoke their
callbacks; ping delegates to `handle_ping`; pong invokes its callback;
close invokes the close callback and `cleanup_client_connection`;
unknown opcodes only log. -/
def process_message (payload : List Nat) (ty : Nat) : ProcessOut :=
  if ty = HTTPD_WS_TYPE_CONTINUATION then ⟨[], [], false⟩
  else if ty = HTTPD_WS_TYPE_TEXT then ⟨[], [Event.text payload], false⟩
  else if ty = HTTPD_WS_TYPE_BINARY then ⟨[], [Event.binary payload], false⟩
  else if ty = HTTPD_WS_TYPE_PING then handle_ping payload
  else if ty = HTTPD_WS_TYPE_PONG then ⟨[], [Event.pong], false⟩
  else if ty = HTTPD_WS_TYPE_CLOSE then ⟨[], [Event.closeMsg, Event.disconnected], true⟩
  else ⟨[], [], false⟩

/-! ### Receive loop (model of `WSLightServer::handle_client_connection`) -/

/-- Outcome of one iteration of the message loop: leave the loop,
skip the frame (decoder returned the null sentinel), or hand the
decoded payload to `process_message`. -/
inductive LoopStep where
  | closeConn
  | skip
  | process (payload : List Nat) (ty : Nat)
deriving DecidableEq

/-- One iteration of the `while` receive loop, given the bytes the
`recv` call produced (`recv` never returns more than
`maxMessageSize`): a zero-length read or a read of at least
`maxMessageSize` bytes breaks out of the loop; otherwise the frame is
decoded, a null sentinel is skipped, and a decoded payload is
processed.  The second component is `accumulated_message` after the
step. -/
def handle_frame_step (maxMessageSize : Nat) (bytes : List Nat)
    (acc : Option (List Nat)) : LoopStep × Option (List Nat) :=
  if bytes.length = 0 then (LoopStep.closeConn, acc)
  else if maxMessageSize ≤ bytes.length then (LoopStep.closeConn, acc)
  else
    let out := decode_frame bytes acc
    match out.msg with
    | none => (LoopStep.skip, out.acc)
    | some payload => (LoopStep.process payload (out.ty.getD 0), out.acc)

/-- Outcome of the handshake phase of `handle_client_connection`. -/
inductive HsOutcome where
  | connClosed
  | enteredLoop (sent : List (List Nat))
deriving DecidableEq

/-- The handshake phase of `handle_client_connection`: an initial read
of at least `MAX_MESSAGE_SIZE` bytes closes the client socket;
otherwise `send_handshake` runs (sending at most one response) and the
function falls through into the message loop unconditionally, whether
or not a response was sent. -/
def handshake_phase (maxMessageSize : Nat) (request : List Nat) : HsOutcome :=
  if maxMessageSize ≤ request.length then HsOutcome.connClosed
  else
    match send_handshake request with
    | none => HsOutcome.enteredLoop []
    | some resp => HsOutcome.enteredLoop [resp]

/-! ### Send API and callback registration -/

/-- The `esp_err_t` values the send API returns. -/
inductive EspErr where
  | ok
  | fail
deriving DecidableEq

/-- The server fields the send API and the callback setters touch:
the client socket handle and the stored disconnect callback.  `Cb`
abstracts the `std::function` payload. -/
structure ServerState (Cb : Type) where
  client_sock : Int
  client_disconnected_callback : Option Cb

/-- Model of `WSLightServer::onClientDisconnected`: store the callback
and reset `client_sock` to `-1`. -/
def onClientDisconnected {Cb : Type} (s : ServerState Cb) (cb : Cb) :
    ServerState Cb :=
  { s with client_disconnected_callback := some cb, client_sock := -1 }

/-- Model of `WSLightServer::sendTextMessage`: oversize text fails;
with a positive client socket one TEXT frame is encoded and sent;
otherwise nothing is sent; both non-failing paths return `ESP_OK`.
The transport write is modelled as succeeding. -/
def sendTextMessage {Cb : Type} (maxMessageSize : Nat) (s : ServerState Cb)
    (text : List Nat) : EspErr × List (List Nat) :=
  if maxMessageSize < text.length then (EspErr.fail, [])
  else if 0 < s.client_sock then
    (EspErr.ok, [encode_frame text HTTPD_WS_TYPE_TEXT])
  else (EspErr.ok, [])

/-- Model of `WSLightServer::sendBinaryMessage`, identical to the text
path except for the opcode. -/
def sendBinaryMessage {Cb : Type} (maxMessageSize : Nat) (s : ServerState Cb)
    (data : List Nat) : EspErr × List (List Nat) :=
  if maxMessageSize < data.length then (EspErr.fail, [])
  else if 0 < s.client_sock then
    (EspErr.ok, [encode_frame data HTTPD_WS_TYPE_BINARY])
  else (EspErr.ok, [])

/-! ### Concrete wire inputs used by individual theorems -/

/-- The RFC 6455 sample upgrade request carrying the key
`dGhlIHNhbXBsZSBub25jZQ==`. -/
def sampleRequest : List Nat :=
  strBytes ("GET /chat HTTP/1.1\r\nHost: server.example.com\r\n" ++
    "Upgrade: websocket\r\nConnection: Upgrade\r\n" ++
    "Sec-WebSocket-Key: dGhlIHNhbXBsZSBub25jZQ==\r\n\r\n")

/-- A request whose key value is 32 bytes long (more than 24) and
which carries no Upgrade header at all. -/
def badUpgradeRequest : List Nat :=
  strBytes "GET / HTTP/1.1\r\nSec-WebSocket-Key: AAAAAAAAAAAAAAAAAAAAAAAAAAAAAAAA\r\n\r\n"

/-- A request without any Sec-WebSocket-Key header. -/
def keylessRequest : List Nat :=
  strBytes "GET / HTTP/1.1\r\nUpgrade: websocket\r\n\r\n"

/-- First fragment of a two-fragment text message: masked TEXT frame
with FIN clear, payload `a`, mask key 01 02 03 04 (97 XOR 1 = 96 on
the wire). -/
def fragFrame1 : List Nat := [1, 129, 1, 2, 3, 4, 96]

/-- Final fragment of the same message: masked CONTINUATION frame with
FIN set, payload `b`, mask key 01 02 03 04 (98 XOR 1 = 99 on the
wire). -/
def fragFrame2 : List Nat := [128, 129, 1, 2, 3, 4, 99]

/-- A 16384-byte read: the prefix of a single masked BINARY frame
whose declared payload length is 32768, as `recv` with a 16384-byte
buffer returns it (header `82 FE 80 00`, mask key, then payload
bytes). -/
def oversizedRecv : List Nat :=
  130 :: 254 :: 128 :: 0 :: 9 :: 8 :: 7 :: 6 :: List.replicate 16376 0

/-! ### Helper lemmas -/

theorem map_getD_range (l : List Nat) (d : Nat) :
    (List.range l.length).map (fun i => l.getD i d) = l := by
  induction l with
  | nil => simp
  | cons a t ih =>
    rw [List.length_cons, List.range_succ_eq_map, List.map_cons, List.map_map]
    have h2 : ((fun i => (a :: t).getD i d) ∘ Nat.succ) = fun i => t.getD i d := by
      funext i; rfl
    rw [h2, ih]
    rfl

theorem length_maskBytes (mkey P : List Nat) : (maskBytes mkey P).length = P.length := by
  simp [maskBytes]

theorem getD_maskBytes (mkey P : List Nat) (i : Nat) (h : i < P.length) :
    (maskBytes mkey P).getD i 0 = (P.getD i 0) ^^^ (mkey.getD (i % 4) 0) := by
  have hl : i < (maskBytes mkey P).length := by
    rw [length_maskBytes]; exact h
  rw [List.getD_eq_getElem _ _ hl]
  simp [maskBytes]

theorem maskBytes_maskBytes (mkey P : List Nat) :
    maskBytes mkey (maskBytes mkey P) = P := by
  have h1 : maskBytes mkey (maskBytes mkey P) =
      (List.range P.length).map (fun i => P.getD i 0) := by
    show (List.range (maskBytes mkey P).length).map _ = _
    rw [length_maskBytes]
    apply List.map_congr_left
    intro i hi
    rw [List.mem_range] at hi
    rw [getD_maskBytes mkey P i hi, Nat.xor_assoc, Nat.xor_self, Nat.xor_zero]
  rw [h1, map_getD_range]

theorem or128_and15 (x : Nat) (h : x < 16) : (128 ||| x) &&& 15 = x := by
  apply Nat.eq_of_testBit_eq
  intro i
  have h128 : (128 : Nat) = 2 ^ 7 := by norm_num
  have h15 : (15 : Nat) = 2 ^ 4 - 1 := by norm_num
  rw [Nat.testBit_and, Nat.testBit_or, h128, h15, Nat.testBit_two_pow,
    Nat.testBit_two_pow_sub_one]
  rcases lt_or_ge i 4 with hi | hi
  · simp [hi, show ¬ (7 = i) by omega]
  · have hx : x.testBit i = false :=
      Nat.testBit_lt_two_pow (lt_of_lt_of_le h (Nat.pow_le_pow_right (by norm_num : 0 < 2) hi))
    simp [hx, show ¬ (i < 4) by omega]

theorem or128_and127 (x : Nat) (h : x < 128) : (128 ||| x) &&& 127 = x := by
  apply Nat.eq_of_testBit_eq
  intro i
  have h128 : (128 : Nat) = 2 ^ 7 := by norm_num
  have h127 : (127 : Nat) = 2 ^ 7 - 1 := by norm_num
  rw [Nat.testBit_and, Nat.testBit_or, h128, h127, Nat.testBit_two_pow,
    Nat.testBit_two_pow_sub_one]
  rcases lt_or_ge i 7 with hi | hi
  · simp [hi, show ¬ (7 = i) by omega]
  · have hx : x.testBit i = false :=
      Nat.testBit_lt_two_pow (lt_of_lt_of_le h (Nat.pow_le_pow_right (by norm_num : 0 < 2) hi))
    simp [hx, show ¬ (i < 7) by omega]

theorem or128_and128_ne_zero (x : Nat) : ((128 ||| x) &&& 128) ≠ 0 := by
  intro hz
  have ht : ((128 ||| x) &&& 128).testBit 7 = false := by
    rw [hz]; simp
  rw [Nat.testBit_and, Nat.testBit_or] at ht
  have h7 : Nat.testBit 128 7 = true := by decide
  simp [h7] at ht

theorem shiftLeft8_or_eq_add (a b : Nat) (hb : b < 256) :
    (a <<< 8) ||| b = a * 256 + b := by
  have h256 : (256 : Nat) = 2 ^ 8 := by norm_num
  have hb' : b < 2 ^ 8 := h256 ▸ hb
  rw [Nat.shiftLeft_eq, h256, Nat.mul_comm a (2 ^ 8), ← Nat.mul_add_lt_is_or hb' a]

theorem shiftLeft8_or_mod (a x : Nat) : (a <<< 8) ||| (x % 256) = a * 256 + x % 256 :=
  shiftLeft8_or_eq_add a (x % 256) (Nat.mod_lt x (by norm_num))

theorem be16_reconstruct (n : Nat) (h : n ≤ 65535) :
    ((((n >>> 8) % 256) <<< 8) ||| (n % 256)) = n := by
  rw [shiftLeft8_or_mod, Nat.shiftRight_eq_div_pow]
  norm_num
  omega

theorem be64_reconstruct (n : Nat) (h : n < 2 ^ 64) (f : Nat → Nat)
    (hf : ∀ i, i < 8 → f i = (n >>> ((7 - i) * 8)) % 256) :
    (List.range 8).foldl (fun a i => (a <<< 8) ||| f i) 0 = n := by
  have e : List.range 8 = [0, 1, 2, 3, 4, 5, 6, 7] := by rfl
  rw [e]
  simp only [List.foldl_cons, List.foldl_nil]
  rw [hf 0 (by omega), hf 1 (by omega), hf 2 (by omega), hf 3 (by omega),
    hf 4 (by omega), hf 5 (by omega), hf 6 (by omega), hf 7 (by omega)]
  simp only [shiftLeft8_or_mod, Nat.shiftRight_eq_div_pow]
  norm_num
  omega


theorem decode_raw_small (ty : Nat) (mkey R : List Nat) (acc : Option (List Nat))
    (hm : mkey.length = 4) (hn : R.length ≤ 125) :
    decode_frame (rawClientFrame ty mkey R) acc =
      ⟨if R.length = 0 then none else some (maskBytes mkey R), some (ty % 16), none⟩ := by
  have hframe : rawClientFrame ty mkey R =
      (128 ||| (ty % 16)) :: (128 ||| R.length) :: (mkey ++ R) := by
    simp [rawClientFrame, lenBytes, hn]
  have hfin : (((128 ||| (ty % 16)) &&& 128) != 0) = true := by
    rw [bne_iff_ne]; exact or128_and128_ne_zero _
  have hmasked : (((128 ||| R.length) &&& 128) != 0) = true := by
    rw [bne_iff_ne]; exact or128_and128_ne_zero _
  have hty : (128 ||| (ty % 16)) &&& 15 = ty % 16 :=
    or128_and15 _ (Nat.mod_lt _ (by norm_num))
  have hlen7 : (128 ||| R.length) &&& 127 = R.length :=
    or128_and127 _ (by omega)
  rw [hframe, decode_frame]
  have hmod : (2 + 4 + R.length) % two64 = 2 + 4 + R.length :=
    Nat.mod_eq_of_lt (by unfold two64; norm_num; omega)
  have hpay : ∀ i : Nat,
      ((128 ||| ty % 16) :: (128 ||| R.length) :: (mkey ++ R)).getD (2 + 4 + i) 0 = R.getD i 0 := by
    intro i
    have e1 : 2 + 4 + i = (4 + i) + 1 + 1 := by omega
    rw [e1, List.getD_cons_succ, List.getD_cons_succ,
      List.getD_append_right _ _ _ _ (by omega : mkey.length ≤ 4 + i)]
    rw [hm]
    congr 1
    omega
  simp only [List.getD_cons_zero, List.getD_cons_succ, List.length_cons,
    List.length_append, hm, hfin, hmasked, hty, hlen7,
    (show ¬(4 + R.length + 1 + 1 < 2) by omega),
    (show ¬(R.length = 126) by omega), (show ¬(R.length = 127) by omega),
    if_false, if_true, hmod,
    (show ¬(4 + R.length + 1 + 1 < 2 + 4 + R.length) by omega),
    List.drop_succ_cons, List.drop_zero, List.take_left' hm]
  have hmap : List.map
      (fun i =>
        ((128 ||| ty % 16) :: (128 ||| R.length) :: (mkey ++ R)).getD (2 + 4 + i) 0 ^^^
          mkey.getD (i % 4) 0)
      (List.range R.length) = maskBytes mkey R := by
    unfold maskBytes
    apply List.map_congr_left
    intro i _
    rw [hpay i]
  rw [hmap]


theorem decode_raw_mid (ty : Nat) (mkey R : List Nat) (acc : Option (List Nat))
    (hm : mkey.length = 4) (hlo : 126 ≤ R.length) (hhi : R.length ≤ 65535) :
    decode_frame (rawClientFrame ty mkey R) acc =
      ⟨some (maskBytes mkey R), some (ty % 16), none⟩ := by
  have hframe : rawClientFrame ty mkey R =
      (128 ||| (ty % 16)) :: (128 ||| 126) :: ((R.length >>> 8) % 256) ::
        (R.length % 256) :: (mkey ++ R) := by
    simp [rawClientFrame, lenBytes, show ¬(R.length ≤ 125) by omega, hhi]
  have hfin : (((128 ||| (ty % 16)) &&& 128) != 0) = true := by
    rw [bne_iff_ne]; exact or128_and128_ne_zero _
  have hty : (128 ||| (ty % 16)) &&& 15 = ty % 16 :=
    or128_and15 _ (Nat.mod_lt _ (by norm_num))
  have hpay : ∀ i : Nat,
      ((128 ||| (ty % 16)) :: (128 ||| 126) :: ((R.length >>> 8) % 256) ::
        (R.length % 256) :: (mkey ++ R)).getD (4 + 4 + i) 0 = R.getD i 0 := by
    intro i
    have e1 : 4 + 4 + i = (4 + i) + 1 + 1 + 1 + 1 := by omega
    rw [e1, List.getD_cons_succ, List.getD_cons_succ, List.getD_cons_succ, List.getD_cons_succ,
      List.getD_append_right _ _ _ _ (by omega : mkey.length <= 4 + i)]
    rw [hm]
    congr 1
    omega
  rw [hframe, decode_frame]
  simp only [List.getD_cons_zero, List.getD_cons_succ, List.length_cons,
    List.length_append, hm, hfin, hty,
    (show (((128 ||| 126) &&& 128) != 0) = true by decide),
    (show ((128 ||| 126) &&& 127) = 126 by decide),
    be16_reconstruct R.length hhi, if_false, if_true,
    (show ¬(4 + R.length + 1 + 1 + 1 + 1 < 2) by omega),
    (show ¬(4 + R.length + 1 + 1 + 1 + 1 < 4) by omega),
    (Nat.mod_eq_of_lt (show 4 + 4 + R.length < two64 by unfold two64; norm_num; omega) :
      (4 + 4 + R.length) % two64 = 4 + 4 + R.length),
    (show ¬(4 + R.length + 1 + 1 + 1 + 1 < 4 + 4 + R.length) by omega),
    (show ¬(R.length = 0) by omega),
    List.drop_succ_cons, List.drop_zero, List.take_left' hm]
  have hmap : List.map
      (fun i =>
        ((128 ||| (ty % 16)) :: (128 ||| 126) :: ((R.length >>> 8) % 256) ::
          (R.length % 256) :: (mkey ++ R)).getD (4 + 4 + i) 0 ^^^
          mkey.getD (i % 4) 0)
      (List.range R.length) = maskBytes mkey R := by
    unfold maskBytes
    apply List.map_congr_left
    intro i _
    rw [hpay i]
  rw [hmap]


theorem decode_raw_large (ty : Nat) (mkey R : List Nat) (acc : Option (List Nat))
    (hm : mkey.length = 4) (hlo : 65536 ≤ R.length) (hhi : R.length < 2 ^ 64 - 14) :
    decode_frame (rawClientFrame ty mkey R) acc =
      ⟨some (maskBytes mkey R), some (ty % 16), none⟩ := by
  have hframe : rawClientFrame ty mkey R =
      (128 ||| (ty % 16)) :: (128 ||| 127) ::
        ((List.range 8).map (fun i => (R.length >>> ((7 - i) * 8)) % 256) ++ (mkey ++ R)) := by
    simp [rawClientFrame, lenBytes, show ¬(R.length ≤ 125) by omega,
      show ¬(R.length ≤ 65535) by omega]
  have hfin : (((128 ||| (ty % 16)) &&& 128) != 0) = true := by
    rw [bne_iff_ne]; exact or128_and128_ne_zero _
  have hty : (128 ||| (ty % 16)) &&& 15 = ty % 16 :=
    or128_and15 _ (Nat.mod_lt _ (by norm_num))
  have hb8len : ((List.range 8).map (fun i => (R.length >>> ((7 - i) * 8)) % 256)).length = 8 := by
    simp
  have hext : ∀ i : Nat, i < 8 →
      ((128 ||| (ty % 16)) :: (128 ||| 127) ::
        ((List.range 8).map (fun i => (R.length >>> ((7 - i) * 8)) % 256) ++ (mkey ++ R))).getD
        (2 + i) 0 = (R.length >>> ((7 - i) * 8)) % 256 := by
    intro i hi
    have e1 : 2 + i = i + 1 + 1 := by omega
    rw [e1, List.getD_cons_succ, List.getD_cons_succ,
      List.getD_append _ _ _ _ (by rw [hb8len]; exact hi)]
    have hil : i < ((List.range 8).map (fun i => (R.length >>> ((7 - i) * 8)) % 256)).length := by
      rw [hb8len]; exact hi
    rw [List.getD_eq_getElem _ _ hil]
    simp
  have hfold : List.foldl
      (fun a i =>
        a <<< 8 |||
          ((128 ||| (ty % 16)) :: (128 ||| 127) ::
            ((List.range 8).map (fun i => (R.length >>> ((7 - i) * 8)) % 256) ++ (mkey ++ R))).getD
            (2 + i) 0) 0 (List.range 8) = R.length := by
    exact be64_reconstruct R.length (by omega) _ hext
  have hpay : ∀ i : Nat,
      ((128 ||| (ty % 16)) :: (128 ||| 127) ::
        ((List.range 8).map (fun i => (R.length >>> ((7 - i) * 8)) % 256) ++ (mkey ++ R))).getD
        (10 + 4 + i) 0 = R.getD i 0 := by
    intro i
    have e1 : 10 + 4 + i = (12 + i) + 1 + 1 := by omega
    rw [e1, List.getD_cons_succ, List.getD_cons_succ,
      List.getD_append_right _ _ _ _ (by rw [hb8len]; omega)]
    rw [hb8len, List.getD_append_right _ _ _ _ (by omega : mkey.length <= 12 + i - 8)]
    rw [hm]
    congr 1
    omega
  rw [hframe, decode_frame]
  simp only [List.getD_cons_zero, List.getD_cons_succ, List.length_cons,
    List.length_append, List.length_map, List.length_range, hm, hfin, hty,
    (show (((128 ||| 127) &&& 128) != 0) = true by decide),
    (show ((128 ||| 127) &&& 127) = 127 by decide),
    (show ¬((127 : Nat) = 126) by decide), (show ((127 : Nat) = 127) by decide),
    if_false, if_true, hfold,
    (show ¬(8 + (4 + R.length) + 1 + 1 < 2) by omega),
    (show ¬(8 + (4 + R.length) + 1 + 1 < 10) by omega),
    (Nat.mod_eq_of_lt (show 10 + 4 + R.length < two64 by unfold two64; norm_num; omega) :
      (10 + 4 + R.length) % two64 = 10 + 4 + R.length),
    (show ¬(8 + (4 + R.length) + 1 + 1 < 10 + 4 + R.length) by omega),
    (show ¬(R.length = 0) by omega),
    List.drop_succ_cons, List.drop_zero, List.drop_left' hb8len, List.take_left' hm]
  have hmap : List.map
      (fun i =>
        ((128 ||| (ty % 16)) :: (128 ||| 127) ::
          ((List.range 8).map (fun i => (R.length >>> ((7 - i) * 8)) % 256) ++ (mkey ++ R))).getD
          (10 + 4 + i) 0 ^^^ mkey.getD (i % 4) 0)
      (List.range R.length) = maskBytes mkey R := by
    unfold maskBytes
    apply List.map_congr_left
    intro i _
    rw [hpay i]
  rw [hmap]


theorem decode_rawClientFrame (ty : Nat) (mkey R : List Nat) (acc : Option (List Nat))
    (hm : mkey.length = 4) (hR : R.length < 2 ^ 64 - 14) :
    decode_frame (rawClientFrame ty mkey R) acc =
      ⟨if R.length = 0 then none else some (maskBytes mkey R), some (ty % 16), none⟩ := by
  rcases le_or_lt R.length 125 with h1 | h1
  · exact decode_raw_small ty mkey R acc hm h1
  rcases le_or_lt R.length 65535 with h2 | h2
  · rw [decode_raw_mid ty mkey R acc hm (by omega) h2, if_neg (by omega)]
  · rw [decode_raw_large ty mkey R acc hm (by omega) hR, if_neg (by omega)]

theorem clientMaskOf_eq (mkey : List Nat) (ty : Nat) (P : List Nat) :
    clientMaskOf mkey ty P = rawClientFrame ty mkey (maskBytes mkey P) := by
  obtain ⟨b, rest, hbr⟩ : ∃ b rest, lenBytes P.length = b :: rest := by
    unfold lenBytes
    split_ifs <;> exact ⟨_, _, rfl⟩
  unfold clientMaskOf encode_frame rawClientFrame
  rw [length_maskBytes, hbr]
  simp only [List.cons_append]
  rw [List.take_left' (by simp [List.length_append])]

theorem decode_clientMaskOf (mkey : List Nat) (ty : Nat) (P : List Nat) (acc : Option (List Nat))
    (hm : mkey.length = 4) (hP : P.length < 2 ^ 64 - 14) :
    decode_frame (clientMaskOf mkey ty P) acc =
      ⟨if P.length = 0 then none else some P, some (ty % 16), none⟩ := by
  rw [clientMaskOf_eq,
    decode_rawClientFrame ty mkey _ acc hm (by rw [length_maskBytes]; exact hP),
    length_maskBytes, maskBytes_maskBytes]


set_option maxRecDepth 100000 in
/-- Claim C1: for every upgrade request containing a Sec-WebSocket-Key
header with value key, the Sec-WebSocket-Accept value written in the 101
response equals base64(SHA1(key ++ GUID)); in particular the key
dGhlIHNhbXBsZSBub25jZQ== yields s3pPLMBiTxaQ9kYGzzhZRbK+xOo=. -/
theorem handshake_accept_spec :
    (∀ request pos klen,
      findSub (request.map toLowerByte) keyHeaderPat = some pos →
      findSub ((request.map toLowerByte).drop (pos + 19)) (strBytes "\r\n") = some klen →
      send_handshake request =
        some (handshakePrefix ++
          base64encode (sha1 (((request.drop (pos + 19)).take klen) ++ websocketGUID)) ++
          strBytes "\r\n\r\n")) ∧
    acceptFor (strBytes "dGhlIHNhbXBsZSBub25jZQ==") =
      strBytes "s3pPLMBiTxaQ9kYGzzhZRbK+xOo=" := by
  constructor
  · intro request pos klen h1 h2
    unfold send_handshake
    simp only [h1, h2]
    rfl
  · decide

set_option maxRecDepth 100000 in
/-- Witness for C1: on the RFC 6455 sample request the server writes the
101 response carrying s3pPLMBiTxaQ9kYGzzhZRbK+xOo=. -/
theorem handshake_accept_spec_witness :
    send_handshake sampleRequest =
      some (handshakePrefix ++ strBytes "s3pPLMBiTxaQ9kYGzzhZRbK+xOo=" ++
        strBytes "\r\n\r\n") :=
  (handshake_accept_spec.1 sampleRequest 87 24 (by decide) (by decide)).trans (by decide)

/-- Claim C2 counterexample: decoding the frame the encoder produces for
payload [65] and opcode text yields the null sentinel, not the payload,
because encode_frame emits unmasked frames and decode_frame rejects
every unmasked frame; and even after client masking the empty payload
fails to round-trip, since a masked final frame with payload length 0
also returns the null sentinel instead of some []. -/
theorem decode_encode_unmasked_cex :
    ((decode_frame (encode_frame [65] HTTPD_WS_TYPE_TEXT) none).msg = none ∧
      (decode_frame (encode_frame [65] HTTPD_WS_TYPE_TEXT) none).msg ≠ some [65]) ∧
    ((decode_frame (clientMaskOf [1, 2, 3, 4] HTTPD_WS_TYPE_TEXT []) none).msg = none ∧
      (decode_frame (clientMaskOf [1, 2, 3, 4] HTTPD_WS_TYPE_TEXT []) none).msg ≠ some []) := by
  decide

/-- Claim C2 (amended): for every byte sequence P and opcode in
{text, binary}, decoding the client-masked counterpart of
encode(P, o, fin=true) recovers opcode o, sees fin=true (the frame is
final, so the accumulator is reset), and yields payload P when P is
nonempty and the null sentinel when P is empty. -/
theorem decode_encode_masked_roundtrip (P mkey : List Nat) (ty : Nat)
    (hty : ty = HTTPD_WS_TYPE_TEXT ∨ ty = HTTPD_WS_TYPE_BINARY)
    (hm : mkey.length = 4)
    (hlen : P.length < 2 ^ 64 - 14) (acc : Option (List Nat)) :
    decode_frame (clientMaskOf mkey ty P) acc =
      ⟨if P.length = 0 then none else some P, some ty, none⟩ := by
  have h16 : ty % 16 = ty := by
    rcases hty with h | h <;> simp [h, HTTPD_WS_TYPE_TEXT, HTTPD_WS_TYPE_BINARY]
  rw [decode_clientMaskOf mkey ty P acc hm hlen, h16]

/-- Witness for C2 (amended): payload hi, mask key 01 02 03 04. -/
theorem decode_encode_masked_roundtrip_witness :
    decode_frame (clientMaskOf [1, 2, 3, 4] HTTPD_WS_TYPE_TEXT [104, 105]) none =
      ⟨some [104, 105], some HTTPD_WS_TYPE_TEXT, none⟩ :=
  (decode_encode_masked_roundtrip [104, 105] [1, 2, 3, 4] HTTPD_WS_TYPE_TEXT
    (Or.inl rfl) (by decide) (by norm_num) none).trans (by decide)

/-- Claim C3: for every well-formed masked client frame with FIN set and
a nonempty payload, every byte i of the decoded payload equals raw
payload byte i XOR mask byte (i mod 4). -/
theorem decode_payload_unmask_xor (ty : Nat) (mkey R : List Nat)
    (acc : Option (List Nat)) (hm : mkey.length = 4) (h1 : 1 ≤ R.length)
    (hlen : R.length < 2 ^ 64 - 14) :
    ∃ payload, (decode_frame (rawClientFrame ty mkey R) acc).msg = some payload ∧
      payload.length = R.length ∧
      ∀ i, i < R.length → payload.getD i 0 = (R.getD i 0) ^^^ (mkey.getD (i % 4) 0) := by
  refine ⟨maskBytes mkey R, ?_, length_maskBytes mkey R, ?_⟩
  · rw [decode_rawClientFrame ty mkey R acc hm hlen, if_neg (by omega)]
  · intro i hi
    exact getD_maskBytes mkey R i hi

/-- Witness for C3: binary frame, mask key 05 06 07 08, raw payload
100 101 102. -/
theorem decode_payload_unmask_xor_witness :
    ∃ payload,
      (decode_frame (rawClientFrame HTTPD_WS_TYPE_BINARY [5, 6, 7, 8] [100, 101, 102]) none).msg =
        some payload ∧
      payload.length = ([100, 101, 102] : List Nat).length ∧
      ∀ i, i < ([100, 101, 102] : List Nat).length →
        payload.getD i 0 =
          (([100, 101, 102] : List Nat).getD i 0) ^^^ (([5, 6, 7, 8] : List Nat).getD (i % 4) 0) :=
  decode_payload_unmask_xor HTTPD_WS_TYPE_BINARY [5, 6, 7, 8] [100, 101, 102] none
    (by decide) (by decide) (by norm_num)

/-- Claim C4 counterexample: on an inbound CLOSE frame (payload [3]) the
server sends no frame at all; it invokes the close callback and closes
the socket without emitting the CLOSE reply the claim describes. -/
theorem close_frame_no_reply_cex :
    (process_message [3] HTTPD_WS_TYPE_CLOSE).sent = [] ∧
    (process_message [3] HTTPD_WS_TYPE_CLOSE).closedSocket = true := by
  decide

set_option maxRecDepth 400000 in
/-- Claim C4 (amended): for every inbound PING frame whose decoded
payload has 1 to 125 bytes the server replies with a PONG carrying the
identical payload; for a CLOSE frame it sends nothing, invokes the close
callback and closes the connection. -/
theorem control_frame_replies (P : List Nat) (hp1 : 1 ≤ P.length)
    (hp125 : P.length ≤ 125) :
    (process_message P HTTPD_WS_TYPE_PING).sent = [encode_frame P HTTPD_WS_TYPE_PONG] ∧
    (process_message P HTTPD_WS_TYPE_PING).closedSocket = false ∧
    (process_message P HTTPD_WS_TYPE_CLOSE).sent = [] ∧
    (process_message P HTTPD_WS_TYPE_CLOSE).events = [Event.closeMsg, Event.disconnected] ∧
    (process_message P HTTPD_WS_TYPE_CLOSE).closedSocket = true := by
  refine ⟨?_, ?_, ?_, ?_, ?_⟩ <;>
    simp [process_message, handle_ping, HTTPD_WS_TYPE_CONTINUATION,
      HTTPD_WS_TYPE_TEXT, HTTPD_WS_TYPE_BINARY, HTTPD_WS_TYPE_PING,
      HTTPD_WS_TYPE_PONG, HTTPD_WS_TYPE_CLOSE]

/-- Witness for C4 (amended): ping payload [7]. -/
theorem control_frame_replies_witness :
    (process_message [7] HTTPD_WS_TYPE_PING).sent = [encode_frame [7] HTTPD_WS_TYPE_PONG] ∧
    (process_message [7] HTTPD_WS_TYPE_PING).closedSocket = false ∧
    (process_message [7] HTTPD_WS_TYPE_CLOSE).sent = [] ∧
    (process_message [7] HTTPD_WS_TYPE_CLOSE).events = [Event.closeMsg, Event.disconnected] ∧
    (process_message [7] HTTPD_WS_TYPE_CLOSE).closedSocket = true :=
  control_frame_replies [7] (by decide) (by decide)

/-- Claim C5 (code-bug evidence): whenever recv returns at least
MAX_MESSAGE_SIZE bytes — as it does for any single frame whose wire
size exceeds the static buffer — the receive loop breaks out and drops
the connection; no heap buffer is allocated and no callback runs. -/
theorem oversize_recv_drops_connection (maxMessageSize : Nat) (bytes : List Nat)
    (acc : Option (List Nat)) (h : maxMessageSize ≤ bytes.length) :
    handle_frame_step maxMessageSize bytes acc = (LoopStep.closeConn, acc) := by
  unfold handle_frame_step
  rcases Nat.eq_zero_or_pos bytes.length with h0 | h0
  · rw [if_pos h0]
  · rw [if_neg (by omega), if_pos h]

/-- Witness for C5: the 16384-byte prefix of a 32768-byte-payload BINARY
frame, received with MAX_MESSAGE_SIZE = 16384, closes the connection. -/
theorem oversize_recv_drops_connection_witness :
    handle_frame_step 16384 oversizedRecv none = (LoopStep.closeConn, none) :=
  oversize_recv_drops_connection 16384 oversizedRecv none
    (by unfold oversizedRecv
        simp only [List.length_cons, List.length_replicate]
        norm_num)

/-- Claim C6 counterexample: with no client connected (client_sock = -1)
sendTextMessage and sendBinaryMessage both return ESP_OK (success) and
send nothing; no NotConnected error exists in the code. -/
theorem send_disconnected_returns_ok_cex :
    sendTextMessage 16384 (⟨-1, none⟩ : ServerState Nat) (strBytes "hi") = (EspErr.ok, []) ∧
    sendBinaryMessage 16384 (⟨-1, none⟩ : ServerState Nat) [1, 2] = (EspErr.ok, []) := by
  decide

/-- Claim C6 (amended): every sendTextMessage or sendBinaryMessage call
made while no client socket is open (client_sock at most 0) skips the
transport entirely and returns ESP_OK, provided the message fits the
size cap. -/
theorem send_disconnected_skips_transport {Cb : Type} (maxMessageSize : Nat)
    (s : ServerState Cb) (msg : List Nat) (hsock : s.client_sock ≤ 0)
    (hlen : msg.length ≤ maxMessageSize) :
    sendTextMessage maxMessageSize s msg = (EspErr.ok, []) ∧
    sendBinaryMessage maxMessageSize s msg = (EspErr.ok, []) := by
  refine ⟨?_, ?_⟩
  · unfold sendTextMessage
    rw [if_neg (by omega), if_neg (by omega)]
  · unfold sendBinaryMessage
    rw [if_neg (by omega), if_neg (by omega)]

/-- Witness for C6 (amended). -/
theorem send_disconnected_skips_transport_witness :
    sendTextMessage 16384 (⟨-1, none⟩ : ServerState Nat) [104, 105] = (EspErr.ok, []) ∧
    sendBinaryMessage 16384 (⟨-1, none⟩ : ServerState Nat) [104, 105] = (EspErr.ok, []) :=
  send_disconnected_skips_transport 16384 ⟨-1, none⟩ [104, 105] (by decide) (by decide)

/-- Claim C7 (code-bug evidence): a fragmented text message a + b is
never delivered as ab: the non-final TEXT fragment is accumulated and
the null sentinel returned; the final CONTINUATION fragment returns only
its own payload [98] while the accumulator holding [97] is reset and
dropped; and process_message ignores CONTINUATION frames entirely, so no
callback sees any part of the message. -/
theorem fragmented_concatenation_lost :
    decode_frame fragFrame1 none = ⟨none, some HTTPD_WS_TYPE_TEXT, some [97]⟩ ∧
    decode_frame fragFrame2 (some [97]) = ⟨some [98], some HTTPD_WS_TYPE_CONTINUATION, none⟩ ∧
    process_message [98] HTTPD_WS_TYPE_CONTINUATION = ⟨[], [], false⟩ := by
  decide

set_option maxRecDepth 100000 in
/-- Claim C8 counterexample: a request whose key value is 32 bytes long
and which has no Upgrade header is not rejected: the server computes and
sends a 101 response and the connection proceeds into the message loop. -/
theorem handshake_accepts_invalid_upgrade_cex :
    (send_handshake badUpgradeRequest).isSome = true ∧
    handshake_phase 16384 badUpgradeRequest ≠ HsOutcome.connClosed := by
  decide

/-- Claim C8 (amended): the handshake rejects only requests that lack a
Sec-WebSocket-Key header; on such a request no response bytes are
written, but the socket is not closed — the connection still enters the
message loop.  Key length and the Upgrade header are never checked. -/
theorem handshake_checks_key_only (request : List Nat) (maxMessageSize : Nat)
    (hshort : request.length < maxMessageSize)
    (hmiss : findSub (request.map toLowerByte) keyHeaderPat = none) :
    send_handshake request = none ∧
    handshake_phase maxMessageSize request = HsOutcome.enteredLoop [] := by
  have hsh : send_handshake request = none := by
    unfold send_handshake
    simp only [hmiss]
  refine ⟨hsh, ?_⟩
  unfold handshake_phase
  rw [if_neg (by omega), hsh]

set_option maxRecDepth 100000 in
/-- Witness for C8 (amended): a keyless request enters the loop with no
response written. -/
theorem handshake_checks_key_only_witness :
    send_handshake keylessRequest = none ∧
    handshake_phase 16384 keylessRequest = HsOutcome.enteredLoop [] :=
  handshake_checks_key_only keylessRequest 16384 (by decide) (by decide)

/-- Claim C9: a well-formed masked final frame with empty payload (such
as an empty PING) makes decode_frame return the {nullptr, 0} sentinel —
the same message value a malformed frame produces — so the receive loop
skips process_message and no callback and no reply frame is produced. -/
theorem empty_final_frame_null_sentinel (ty maxMessageSize : Nat) (mkey : List Nat)
    (acc : Option (List Nat)) (hm : mkey.length = 4) (hmax : 6 < maxMessageSize) :
    (decode_frame (rawClientFrame ty mkey []) acc).msg = none ∧
    (decode_frame [135] acc).msg = none ∧
    handle_frame_step maxMessageSize (rawClientFrame ty mkey []) acc = (LoopStep.skip, none) := by
  have hdec : decode_frame (rawClientFrame ty mkey []) acc =
      ⟨none, some (ty % 16), none⟩ := by
    rw [decode_rawClientFrame ty mkey [] acc hm (by norm_num)]
    simp
  have hlen6 : (rawClientFrame ty mkey []).length = 6 := by
    simp [rawClientFrame, lenBytes, hm]
  refine ⟨by rw [hdec], rfl, ?_⟩
  unfold handle_frame_step
  rw [hlen6, if_neg (by omega), if_neg (by omega), hdec]

/-- Witness for C9: an empty masked PING frame is skipped. -/
theorem empty_final_frame_null_sentinel_witness :
    (decode_frame (rawClientFrame HTTPD_WS_TYPE_PING [1, 2, 3, 4] []) none).msg = none ∧
    (decode_frame [135] (none : Option (List Nat))).msg = none ∧
    handle_frame_step 16384 (rawClientFrame HTTPD_WS_TYPE_PING [1, 2, 3, 4] []) none =
      (LoopStep.skip, none) :=
  empty_final_frame_null_sentinel HTTPD_WS_TYPE_PING 16384 [1, 2, 3, 4] none
    (by decide) (by decide)

/-- Claim C10: onClientDisconnected stores the callback and resets the
stored client socket to -1, so immediately afterwards the server treats
no client as connected and sends skip the transport (returning ESP_OK). -/
theorem onClientDisconnected_resets_socket {Cb : Type} (s : ServerState Cb) (cb : Cb)
    (maxMessageSize : Nat) (msg : List Nat) (hlen : msg.length ≤ maxMessageSize) :
    (onClientDisconnected s cb).client_disconnected_callback = some cb ∧
    (onClientDisconnected s cb).client_sock = -1 ∧
    sendTextMessage maxMessageSize (onClientDisconnected s cb) msg = (EspErr.ok, []) ∧
    sendBinaryMessage maxMessageSize (onClientDisconnected s cb) msg = (EspErr.ok, []) := by
  have hns : ¬ (0 < (onClientDisconnected s cb).client_sock) := by
    have h1 : (onClientDisconnected s cb).client_sock = -1 := rfl
    rw [h1]
    norm_num
  refine ⟨rfl, rfl, ?_, ?_⟩
  · unfold sendTextMessage
    rw [if_neg (by omega), if_neg hns]
  · unfold sendBinaryMessage
    rw [if_neg (by omega), if_neg hns]

/-- Witness for C10: a server with an open socket 7 stops sending after
onClientDisconnected is called. -/
theorem onClientDisconnected_resets_socket_witness :
    (onClientDisconnected (⟨7, none⟩ : ServerState Nat) 42).client_disconnected_callback = some 42 ∧
    (onClientDisconnected (⟨7, none⟩ : ServerState Nat) 42).client_sock = -1 ∧
    sendTextMessage 16384 (onClientDisconnected (⟨7, none⟩ : ServerState Nat) 42) [104] = (EspErr.ok, []) ∧
    sendBinaryMessage 16384 (onClientDisconnected (⟨7, none⟩ : ServerState Nat) 42) [104] = (EspErr.ok, []) :=
  onClientDisconnected_resets_socket ⟨7, none⟩ 42 16384 [104] (by decide)

end WS
